import Mathlib

/-
Verification of the background-job worker (src/worker.go) against its
specification. The worker's fetch/execute/disposition pipeline is embedded
shallowly: redis commands are modelled as argument lists (as they are passed
to conn.Do), the store as explicit state, the handler outcome and the random
jitter as parameters, and the lifecycle channels as explicit state with Go
channel/select semantics.
-/

namespace Work

/-- A value sent to or received from the store: redis bulk strings and
integers, matching the argument kinds the worker passes to conn.Do. -/
inductive RVal where
  | str (s : String)
  | int (n : Int)
deriving DecidableEq

/-- A store command exactly as the worker issues it: the argument list given
to conn.Do, command name first. -/
abbrev Cmd := List RVal

/-- Registration record for one job type (fields as used by worker.go:
jt.Name, jt.Priority, jt.MaxFails, jt.SkipDead). The struct itself is
declared outside src/; field types are modelled from the spec (unique name,
positive integer weight, maximum failure count, suppress-dead flag). -/
structure JobTypeRec where
  Name : String
  Priority : Nat
  MaxFails : Nat
  SkipDead : Bool
deriving DecidableEq

/-- One unit of work in flight (fields as used by worker.go: job.Name,
job.Fails, job.rawJSON, job.dequeuedFrom, job.inProgQueue, plus the
argument payload and last-error text of the spec's envelope). -/
structure Job where
  Name : String
  Args : String
  Fails : Int
  LastErr : Option String
  rawJSON : String
  dequeuedFrom : String
  inProgQueue : String
deriving DecidableEq

/-- Modelled from the spec: job.failed (called at worker.go:144,150 but
declared outside src/) records a failure on the job — failure count += 1
and error fields set. -/
def Job.failed (j : Job) (errMsg : String) : Job :=
  { j with Fails := j.Fails + 1, LastErr := some errMsg }

/-- Modelled from the spec: job.Serialize (called at worker.go:178,195 but
declared outside src/) writes the wire envelope — job type name, argument
payload, failure count, error text; serialization may fail, in which case
the disposition record is dropped. -/
def serializeJob (j : Job) : Option String :=
  some (j.Name ++ "|" ++ toString j.Fails ++ "|" ++ j.Args ++ "|" ++ j.LastErr.getD "")

/-- Modelled from the spec: redisKeyRetry — the one retry structure, namespaced
under the configurable prefix plus a fixed suffix for its role. -/
def redisKeyRetry (ns : String) : String := ns ++ ":retry"

/-- Modelled from the spec: redisKeyDead — the one dead-letter structure,
namespaced under the configurable prefix plus a fixed suffix for its role. -/
def redisKeyDead (ns : String) : String := ns ++ ":dead"

/-- Modelled from the spec: redisKeyJobs — the per-JobType source queue key. -/
def redisKeyJobs (ns name : String) : String := ns ++ ":jobs:" ++ name

/-- Modelled from the spec: redisKeyJobsInProgress — the per-JobType
reservation (in-progress) queue key. -/
def redisKeyJobsInProgress (ns name : String) : String :=
  ns ++ ":jobs:" ++ name ++ ":inprogress"

/-- The worker state the disposition code reads: its namespace and the
registered job types (worker.go:9-22; the jobTypes map is modelled as a
list searched by name). -/
structure Worker where
  «namespace» : String
  jobTypes : List JobTypeRec
deriving DecidableEq

/-- Lookup in the worker's jobTypes map (w.jobTypes[job.Name] at
worker.go:142). -/
def lookupJobType (l : List JobTypeRec) (name : String) : Option JobTypeRec :=
  l.find? (fun jt => jt.Name == name)

/-- Embeds backoff (worker.go:216-218):
(fails * fails * fails * fails) + 15 + (rand.Int63n(30) * (fails + 1)).
The call rand.Int63n 30 is modelled by the jitter parameter r, which ranges
over 0 ≤ r < 30, the support of that generator. -/
def backoff (fails r : Int) : Int :=
  (fails * fails * fails * fails) + 15 + (r * (fails + 1))

/-- The backoff formula exactly as the spec words it, for comparison with
the source's backoff: fails⁴ + 15 + random(0, 30) × (fails + 1) seconds. -/
def backoff_spec (fails r : Int) : Int :=
  fails ^ 4 + 15 + r * (fails + 1)

/-- Embeds addToRetry (worker.go:177-192): serialize the job (on failure the
record is dropped), then ZADD into the retry key scored by
nowEpochSeconds() + backoff(job.Fails). The command is returned as issued. -/
def addToRetry (w : Worker) (job : Job) (now r : Int) : List Cmd :=
  match serializeJob job with
  | none => []
  | some rawJSON =>
    [[RVal.str "ZADD", RVal.str (redisKeyRetry w.«namespace»),
      RVal.int (now + backoff job.Fails r), RVal.str rawJSON]]

/-- Embeds addToDead (worker.go:194-213): serialize the job (on failure the
record is dropped), then ZADD into the dead key scored by
nowEpochSeconds() + backoff(job.Fails) — note the source adds backoff to the
dead score. -/
def addToDead (w : Worker) (job : Job) (now r : Int) : List Cmd :=
  match serializeJob job with
  | none => []
  | some rawJSON =>
    [[RVal.str "ZADD", RVal.str (redisKeyDead w.«namespace»),
      RVal.int (now + backoff job.Fails r), RVal.str rawJSON]]

/-- Embeds addToRetryOrDead (worker.go:166-175): failsRemaining =
int64(jt.MaxFails) - job.Fails; retry when positive, otherwise dead unless
jt.SkipDead. -/
def addToRetryOrDead (w : Worker) (jt : JobTypeRec) (job : Job) (now r : Int) : List Cmd :=
  let failsRemaining : Int := (jt.MaxFails : Int) - job.Fails
  if failsRemaining > 0 then
    addToRetry w job now r
  else if !jt.SkipDead then
    addToDead w job now r
  else
    []

/-- Embeds removeJobFromInProgress (worker.go:156-164): the command issued is
conn.Do("LREM", 1, job.rawJSON) — the arguments are the integer 1 and the raw
bytes; no queue key is passed. The resulting error is ignored by the source. -/
def removeJobFromInProgressCmd (job : Job) : Cmd :=
  [RVal.str "LREM", RVal.int 1, RVal.str job.rawJSON]

/-- Embeds processJob (worker.go:139-154). The handler call runJob is declared
outside src/; its outcome is passed as runResult (none = success, some msg =
the handler error). Known type: on handler error, job.failed then
addToRetryOrDead. Unknown type: job.failed with "stray job -- no handler"
then addToDead unconditionally. The deferred removeJobFromInProgress runs
last on every path, so its command is appended on every path. -/
def processJob (w : Worker) (job : Job) (runResult : Option String) (now r : Int) : List Cmd :=
  (match lookupJobType w.jobTypes job.Name with
   | some jt =>
     match runResult with
     | none => []
     | some errMsg => addToRetryOrDead w jt (job.failed errMsg) now r
   | none =>
     addToDead w (job.failed "stray job -- no handler") now r)
  ++ [removeJobFromInProgressCmd job]

/-- The store: list structures (source and reservation queues) and sorted
sets (retry and dead stores), each keyed by name. -/
structure RedisState where
  lists : String → List String
  zsets : String → List (Int × String)

/-- LREM list semantics for positive count: remove up to count occurrences of
the value, scanning from the head. -/
def removeOcc : Nat → String → List String → List String
  | _, _, [] => []
  | 0, _, l => l
  | Nat.succ n, v, x :: xs =>
    if x = v then removeOcc n v xs else x :: removeOcc (Nat.succ n) v xs

/-- ZADD sorted-set semantics: insert the member with the score, replacing
any previous entry for the same member. -/
def zaddList (score : Int) (member : String) (l : List (Int × String)) : List (Int × String) :=
  (score, member) :: l.filter (fun p => p.2 != member)

/-- Execute one command against the store. A well-formed ZADD key score
member updates the sorted set; a well-formed LREM key count value updates
the list. Any other argument shape — in particular LREM with only two
arguments, which redis rejects with a wrong-arity error — leaves the store
unchanged (the worker ignores the returned error). -/
def execCmd (st : RedisState) (c : Cmd) : RedisState :=
  match c with
  | [RVal.str "ZADD", RVal.str key, RVal.int score, RVal.str member] =>
    { st with zsets := fun k => if k = key then zaddList score member (st.zsets key) else st.zsets k }
  | [RVal.str "LREM", RVal.str key, RVal.int count, RVal.str v] =>
    { st with lists := fun k => if k = key then removeOcc count.toNat v (st.lists key) else st.lists k }
  | _ => st

/-- Execute a command sequence in order. -/
def execCmds (st : RedisState) (cs : List Cmd) : RedisState :=
  cs.foldl execCmd st

/-- A registered job type used as a concrete test fixture. -/
def jt0 : JobTypeRec := { Name := "email", Priority := 1, MaxFails := 3, SkipDead := false }

/-- A worker with namespace ns and one registered job type. -/
def w0 : Worker := { «namespace» := "ns", jobTypes := [jt0] }

/-- A freshly fetched job of the registered type, reserved in its
in-progress queue. -/
def job0 : Job :=
  { Name := "email", Args := "a", Fails := 0, LastErr := none,
    rawJSON := "RAW", dequeuedFrom := "ns:jobs:email",
    inProgQueue := "ns:jobs:email:inprogress" }

/-- The same job after one earlier failure. -/
def job1 : Job := { job0 with Fails := 1 }

/-- A fetched job whose name has no registered job type. -/
def jobStray : Job := { job0 with Name := "ghost" }

/-- Store state in which job0's raw bytes sit in its reservation queue. -/
def st0 : RedisState :=
  { lists := fun k => if k = "ns:jobs:email:inprogress" then ["RAW"] else [],
    zsets := fun _ => [] }

/-- Store state with every structure empty. -/
def stEmpty : RedisState := { lists := fun _ => [], zsets := fun _ => [] }

/-- The reply of the atomic fetch script as fetchJob receives it from
redis.Values: the nil reply (redis.ErrNil, every source queue empty), a
transport or protocol error, or a list of reply values. -/
inductive ScriptReply where
  | errNil
  | err (e : String)
  | values (vs : List RVal)
deriving DecidableEq

/-- Modelled from the spec: newJob (called at worker.go:131 but declared
outside src/) parses the raw envelope bytes into a Job, recording the raw
bytes and the two queue names; a malformed envelope is a hard error for the
fetch attempt. The modelled wire format is the one serializeJob writes:
name, failure count, arguments, error text. -/
def newJob (rawJSON dequeuedFrom inProgQueue : String) : Except String Job :=
  match rawJSON.splitOn "|" with
  | [n, f, a, e] =>
    match f.toInt? with
    | some fv =>
      Except.ok
        { Name := n, Args := a, Fails := fv,
          LastErr := if e = "" then none else some e,
          rawJSON := rawJSON, dequeuedFrom := dequeuedFrom,
          inProgQueue := inProgQueue }
    | none => Except.error "malformed job envelope"
  | _ => Except.error "malformed job envelope"

/-- Embeds fetchJob (worker.go:93-137) as a function of the script reply:
the nil reply yields no work and no error (nil, nil); any other redis error
is returned; a values reply must have exactly 3 byte-string elements
(message, dequeued-from queue, in-progress queue) and is parsed by newJob;
each malformed shape yields the error the source constructs. -/
def fetchJob (reply : ScriptReply) : Except String (Option Job) :=
  match reply with
  | ScriptReply.errNil => Except.ok none
  | ScriptReply.err e => Except.error e
  | ScriptReply.values vs =>
    match vs with
    | [v0, v1, v2] =>
      match v0 with
      | RVal.str rawJSON =>
        match v1 with
        | RVal.str dequeuedFrom =>
          match v2 with
          | RVal.str inProgQueue =>
            match newJob rawJSON dequeuedFrom inProgQueue with
            | Except.ok job => Except.ok (some job)
            | Except.error e => Except.error e
          | _ => Except.error "response in prog not bytes"
        | _ => Except.error "response queue not bytes"
      | _ => Except.error "response msg not bytes"
    | _ => Except.error "need 3 elements back"

/-- Modelled from the spec: redisLuaRpoplpushMultiCmd (the atomic fetch
script, declared outside src/) — iterate the sampled (source, reservation)
pairs in order; for the first pair whose source queue is non-empty, pop one
item from the tail of the source queue and push it to the head of its paired
reservation queue, returning the item and both queue names; if every source
queue is empty, signal nil. The whole operation is one atomic step. -/
def runFetchScript (st : RedisState) : List (String × String) → RedisState × ScriptReply
  | [] => (st, ScriptReply.errNil)
  | (srcQueue, resQueue) :: rest =>
    match (st.lists srcQueue).getLast? with
    | some item =>
      let afterPop := (st.lists srcQueue).dropLast
      let st1 : RedisState :=
        { st with lists := fun k => if k = srcQueue then afterPop else st.lists k }
      let st2 : RedisState :=
        { st1 with lists := fun k => if k = resQueue then item :: st1.lists resQueue else st1.lists k }
      (st2, ScriptReply.values [RVal.str item, RVal.str srcQueue, RVal.str resQueue])
    | none => runFetchScript st rest

/-- The observable outcome of one loopIteration: the returned did-work flag,
the job dispatched to processJob (if any), and the fetch error reported via
logError (if any). -/
structure LoopIterResult where
  didWork : Bool
  dispatched : Option Job
  fetchErrLogged : Option String
deriving DecidableEq

/-- Embeds loopIteration (worker.go:81-91) as a function of the fetch
script's reply: a fetch error is logged (logError "fetch") and the iteration
returns true; a fetched job is dispatched to processJob and the iteration
returns true; the no-work result returns false. The function is total — no
outcome escapes as an error. -/
def loopIteration (reply : ScriptReply) : LoopIterResult :=
  match fetchJob reply with
  | Except.error e => { didWork := true, dispatched := none, fetchErrLogged := some e }
  | Except.ok (some job) => { didWork := true, dispatched := some job, fetchErrLogged := none }
  | Except.ok none => { didWork := false, dispatched := none, fetchErrLogged := none }

/-- The control state one round of the loop select observes: whether a stop
is pending (stopChan closed, so its receive is ready forever after) and
whether a force-step is pending (a forceIter sender blocked on
forceIterChan, so that receive is ready). -/
structure LoopState where
  stopPending : Bool
  forcePending : Bool
deriving DecidableEq

/-- What one round of the loop select does. -/
inductive LoopAction where
  | exit
  | forcedIter
  | unforcedIter
deriving DecidableEq

/-- Embeds one round of the select in loop (worker.go:62-79). Go evaluates a
select by choosing uniformly at random among the ready communication cases;
pickStop resolves that choice when both the stop receive and the force
receive are ready. When only one is ready it is taken, and the default
branch — an unforced loopIteration — runs only when neither is ready. -/
def loopStep (s : LoopState) (pickStop : Bool) : LoopAction :=
  if s.stopPending && s.forcePending then
    if pickStop then LoopAction.exit else LoopAction.forcedIter
  else if s.stopPending then
    LoopAction.exit
  else if s.forcePending then
    LoopAction.forcedIter
  else
    LoopAction.unforcedIter

/-- The lifecycle channel state the stop path touches: whether stopChan has
been closed and whether the loop has closed doneStoppingChan in
acknowledgment. -/
structure LifecycleState where
  stopChanClosed : Bool
  doneStoppingClosed : Bool
deriving DecidableEq

/-- The outcome of running a Go statement: a value, or a runtime panic. -/
inductive GoResult (α : Type) where
  | ok (val : α)
  | panicked (msg : String)
deriving DecidableEq

/-- Go channel semantics for the builtin close: closing an already-closed
channel panics with "close of closed channel". -/
def closeChan (alreadyClosed : Bool) : GoResult Unit :=
  if alreadyClosed then GoResult.panicked "close of closed channel"
  else GoResult.ok ()

/-- Embeds stop (worker.go:50-53): close(stopChan), then block receiving on
doneStoppingChan until the loop closes it (worker.go:66) and return. The
close panics when stopChan is already closed, in which case the receive is
never reached. -/
def stop (s : LifecycleState) : GoResult LifecycleState :=
  match closeChan s.stopChanClosed with
  | GoResult.panicked m => GoResult.panicked m
  | GoResult.ok _ => GoResult.ok { s with stopChanClosed := true }

end Work

namespace Work

/-- C4: for every nonnegative fails count and every jitter outcome r of
rand.Int63n 30 (0 ≤ r < 30), the source's backoff equals the spec formula
fails⁴ + 15 + r × (fails + 1). -/
theorem backoff_matches_spec_formula (fails r : Int)
    (hf : 0 ≤ fails) (hr0 : 0 ≤ r) (hr1 : r < 30) :
    backoff fails r = backoff_spec fails r := by
  unfold backoff backoff_spec
  ring

/-- Witness for C4 at fails = 2, r = 7. -/
theorem backoff_matches_spec_formula_witness :
    backoff 2 7 = backoff_spec 2 7 :=
  backoff_matches_spec_formula 2 7 (by decide) (by decide) (by decide)

/-- C5, counterexample: across independently drawn jitters the claim's
strict monotonicity fails — with jitter 29 at fails = 1 and jitter 0 at
fails = 2 (both legal outcomes of rand.Int63n 30), backoff(2) < backoff(1),
refuting backoff(fails+1) > backoff(fails) for all jitter outcomes. -/
theorem backoff_not_monotone_across_jitters :
    (0 : Int) ≤ 29 ∧ (29 : Int) < 30 ∧ (0 : Int) ≤ 0 ∧ (0 : Int) < 30 ∧
    backoff (1 + 1) 0 < backoff 1 29 := by
  refine ⟨by decide, by decide, by decide, by decide, ?_⟩
  decide

/-- C5, amended: for fails in 1..5 and any single jitter outcome r of
rand.Int63n 30, backoff fails r is at least 15, and with the jitter outcome
held fixed across the two evaluations backoff is strictly increasing:
backoff (fails+1) r > backoff fails r. -/
theorem backoff_monotone_fixed_jitter (fails r : Int)
    (h1 : 1 ≤ fails) (h5 : fails ≤ 5) (hr0 : 0 ≤ r) (hr1 : r < 30) :
    15 ≤ backoff fails r ∧ backoff fails r < backoff (fails + 1) r := by
  unfold backoff
  have h0 : (0 : Int) ≤ fails := by linarith
  constructor
  · nlinarith [mul_nonneg (mul_nonneg (mul_nonneg h0 h0) h0) h0,
      mul_nonneg hr0 (by linarith : (0 : Int) ≤ fails + 1)]
  · nlinarith [mul_nonneg (mul_nonneg h0 h0) h0, sq_nonneg fails]

/-- Witness for C5's amended theorem at fails = 3, r = 10. -/
theorem backoff_monotone_fixed_jitter_witness :
    15 ≤ backoff 3 10 ∧ backoff 3 10 < backoff (3 + 1) 10 :=
  backoff_monotone_fixed_jitter 3 10 (by decide) (by decide) (by decide) (by decide)

/-- C1: evaluation at the failing input. job0 is reserved in
ns:jobs:email:inprogress with raw bytes RAW; after processJob runs to
completion — on the success path and on the failure path — the reservation
entry is still present, because the removal command the source issues is
LREM with arguments (1, RAW) and no queue key (third conjunct), which the
store rejects as a wrong-arity command, and the error is ignored. The claim
that the reservation-queue entry no longer exists after disposition fails. -/
theorem processJob_reservation_entry_survives :
    (execCmds st0 (processJob w0 job0 none 1000 0)).lists "ns:jobs:email:inprogress" = ["RAW"]
    ∧ (execCmds st0 (processJob w0 job0 (some "boom") 1000 0)).lists "ns:jobs:email:inprogress" = ["RAW"]
    ∧ processJob w0 job0 none 1000 0 = [[RVal.str "LREM", RVal.int 1, RVal.str "RAW"]] :=
  ⟨rfl, rfl, rfl⟩

/-- C2: evaluation at the failing input. Dead-lettering job1 (failure count
1) at epoch second 1000 with jitter 0 writes the record with score
1000 + backoff(1) = 1016, not the insertion time 1000: the source adds the
retry backoff to the dead-letter score, contradicting the claim that dead
records are scored by insertion time alone. -/
theorem addToDead_score_includes_backoff :
    addToDead w0 job1 1000 0 =
      [[RVal.str "ZADD", RVal.str "ns:dead", RVal.int 1016, RVal.str "email|1|a|"]]
    ∧ (1016 : Int) ≠ 1000 :=
  ⟨rfl, by decide⟩

/-- C3: for a failed job of a registered JobType, with the failure count
already incremented by job.failed (post-increment count job.Fails + 1) and
failsRemaining = maxFails − (job.Fails + 1): when failsRemaining > 0 the
job is written to the retry structure scored by now + backoff(post-increment
count); when failsRemaining ≤ 0 and skip-dead is unset it is written to the
dead-letter structure; when failsRemaining ≤ 0 and skip-dead is set no retry
or dead record is written at all — only the (attempted) reservation removal
is issued. -/
theorem processJob_failure_disposition (w : Worker) (jt : JobTypeRec) (job : Job)
    (errMsg : String) (now r : Int) (rawJSON : String)
    (hjt : lookupJobType w.jobTypes job.Name = some jt)
    (hser : serializeJob (job.failed errMsg) = some rawJSON) :
    ((jt.MaxFails : Int) - (job.Fails + 1) > 0 →
      processJob w job (some errMsg) now r =
        [[RVal.str "ZADD", RVal.str (redisKeyRetry w.«namespace»),
          RVal.int (now + backoff (job.Fails + 1) r), RVal.str rawJSON],
         removeJobFromInProgressCmd job])
    ∧ ((jt.MaxFails : Int) - (job.Fails + 1) ≤ 0 → jt.SkipDead = false →
      processJob w job (some errMsg) now r =
        [[RVal.str "ZADD", RVal.str (redisKeyDead w.«namespace»),
          RVal.int (now + backoff (job.Fails + 1) r), RVal.str rawJSON],
         removeJobFromInProgressCmd job])
    ∧ ((jt.MaxFails : Int) - (job.Fails + 1) ≤ 0 → jt.SkipDead = true →
      processJob w job (some errMsg) now r = [removeJobFromInProgressCmd job]) := by
  have hfails : (job.failed errMsg).Fails = job.Fails + 1 := rfl
  refine ⟨?_, ?_, ?_⟩
  · intro h
    simp only [processJob, hjt, addToRetryOrDead, hfails]
    rw [if_pos h]
    simp only [addToRetry, hser, hfails]
    rfl
  · intro h hsd
    simp only [processJob, hjt, addToRetryOrDead, hfails]
    rw [if_neg (not_lt.mpr h)]
    simp only [hsd, Bool.not_false, if_pos]
    simp only [addToDead, hser, hfails]
    rfl
  · intro h hsd
    simp only [processJob, hjt, addToRetryOrDead, hfails]
    rw [if_neg (not_lt.mpr h)]
    simp only [hsd, Bool.not_true]
    rfl

/-- Witness for C3 at the retry branch: job1 has failure count 2 after the
increment, maxFails is 3, so failsRemaining = 1 > 0 and the job goes to the
retry structure. -/
theorem processJob_failure_disposition_witness :
    processJob w0 job1 (some "boom") 1000 5 =
      [[RVal.str "ZADD", RVal.str (redisKeyRetry w0.«namespace»),
        RVal.int (1000 + backoff (job1.Fails + 1) 5), RVal.str "email|2|a|boom"],
       removeJobFromInProgressCmd job1] :=
  (processJob_failure_disposition w0 jt0 job1 "boom" 1000 5 "email|2|a|boom"
    rfl rfl).1 (by decide)

/-- C6: a fetched job whose name has no registered JobType is treated as a
hard failure — the failure count and error fields are forced via job.failed
with "stray job -- no handler" — and is written to the dead-letter structure
unconditionally, for every handler outcome, with no retry record and no
dependence on any skip-dead flag (the command list is exactly one dead-key
ZADD followed by the reservation removal). -/
theorem processJob_unknown_type_dead_letters (w : Worker) (job : Job)
    (runResult : Option String) (now r : Int) (rawJSON : String)
    (hjt : lookupJobType w.jobTypes job.Name = none)
    (hser : serializeJob (job.failed "stray job -- no handler") = some rawJSON) :
    processJob w job runResult now r =
      [[RVal.str "ZADD", RVal.str (redisKeyDead w.«namespace»),
        RVal.int (now + backoff (job.Fails + 1) r), RVal.str rawJSON],
       removeJobFromInProgressCmd job] := by
  have hfails : (job.failed "stray job -- no handler").Fails = job.Fails + 1 := rfl
  simp only [processJob, hjt, addToDead, hser, hfails]
  rfl

/-- Witness for C6: jobStray's name ghost is unregistered in w0; it is
dead-lettered with forced failure count 1 and the stray-job error text. -/
theorem processJob_unknown_type_dead_letters_witness :
    processJob w0 jobStray none 1000 2 =
      [[RVal.str "ZADD", RVal.str (redisKeyDead w0.«namespace»),
        RVal.int (1000 + backoff (jobStray.Fails + 1) 2),
        RVal.str "ghost|1|a|stray job -- no handler"],
       removeJobFromInProgressCmd jobStray] :=
  processJob_unknown_type_dead_letters w0 jobStray none 1000 2
    "ghost|1|a|stray job -- no handler" rfl rfl

/-- Helper: a values reply never yields the no-work result — fetchJob maps
it either to a parsed job or to a malformed-response error. -/
theorem fetchJob_values_ne_ok_none (vs : List RVal) :
    fetchJob (ScriptReply.values vs) ≠ Except.ok none := by
  intro h
  rcases vs with _ | ⟨v0, vs1⟩
  · simp [fetchJob] at h
  rcases vs1 with _ | ⟨v1, vs2⟩
  · cases v0 <;> simp [fetchJob] at h
  rcases vs2 with _ | ⟨v2, vs3⟩
  · cases v0 <;> cases v1 <;> simp [fetchJob] at h
  rcases vs3 with _ | ⟨v3, vs4⟩
  · cases v0 with
    | int n => simp [fetchJob] at h
    | str rawJSON =>
      cases v1 with
      | int n => simp [fetchJob] at h
      | str dequeuedFrom =>
        cases v2 with
        | int n => simp [fetchJob] at h
        | str inProgQueue =>
          cases hnj : newJob rawJSON dequeuedFrom inProgQueue with
          | ok job => simp [fetchJob, hnj] at h
          | error e => simp [fetchJob, hnj] at h
  · cases v0 <;> cases v1 <;> cases v2 <;> simp [fetchJob] at h

/-- C7: when every source queue named in the sampled pairs is empty, the
atomic fetch script signals nil and leaves the store untouched, and fetchJob
turns a reply into the no-work result (no job, no error) exactly when that
reply is the nil signal — every non-nil-error outcome of fetchJob comes from
a transport error or a malformed values reply. -/
theorem fetch_empty_queues_no_work (st : RedisState) (pairs : List (String × String))
    (reply : ScriptReply)
    (hempty : ∀ p ∈ pairs, st.lists p.1 = []) :
    runFetchScript st pairs = (st, ScriptReply.errNil)
    ∧ (fetchJob reply = Except.ok none ↔ reply = ScriptReply.errNil) := by
  constructor
  · induction pairs with
    | nil => rfl
    | cons p rest ih =>
      obtain ⟨srcQueue, resQueue⟩ := p
      have h1 : st.lists srcQueue = [] := hempty (srcQueue, resQueue) (List.mem_cons_self _ _)
      have h2 : (st.lists srcQueue).getLast? = none := by rw [h1]; rfl
      show runFetchScript st ((srcQueue, resQueue) :: rest) = _
      unfold runFetchScript
      rw [h2]
      exact ih (fun q hq => hempty q (List.mem_cons_of_mem _ hq))
  · constructor
    · intro h
      cases reply with
      | errNil => rfl
      | err e => simp [fetchJob] at h
      | values vs => exact absurd h (fetchJob_values_ne_ok_none vs)
    · intro h
      subst h
      rfl

/-- Witness for C7: a store with all structures empty and one sampled pair;
the script signals nil with the store unchanged, and fetchJob maps the nil
signal to the no-work result. -/
theorem fetch_empty_queues_no_work_witness :
    runFetchScript stEmpty [("ns:jobs:email", "ns:jobs:email:inprogress")]
        = (stEmpty, ScriptReply.errNil)
    ∧ (fetchJob ScriptReply.errNil = Except.ok none ↔ ScriptReply.errNil = ScriptReply.errNil) :=
  fetch_empty_queues_no_work stEmpty [("ns:jobs:email", "ns:jobs:email:inprogress")]
    ScriptReply.errNil (fun p _ => rfl)

/-- C8: per loop iteration — a fetch error is reported via the log and the
iteration returns true (did work) without propagating the error; a fetched
job is dispatched to processing and the iteration returns true; the no-work
result returns false. loopIteration is a total function into LoopIterResult,
so no outcome of an iteration escapes it as an error. -/
theorem loopIteration_outcomes (reply : ScriptReply) (e : String) (j : Job) :
    (fetchJob reply = Except.error e →
      loopIteration reply = { didWork := true, dispatched := none, fetchErrLogged := some e })
    ∧ (fetchJob reply = Except.ok (some j) →
      loopIteration reply = { didWork := true, dispatched := some j, fetchErrLogged := none })
    ∧ (fetchJob reply = Except.ok none →
      loopIteration reply = { didWork := false, dispatched := none, fetchErrLogged := none }) := by
  unfold loopIteration
  refine ⟨?_, ?_, ?_⟩ <;> intro h <;> rw [h]

/-- Witness for C8 at a concrete transport error: the error is logged and
the iteration counts as did-work. -/
theorem loopIteration_outcomes_witness :
    loopIteration (ScriptReply.err "boom")
      = { didWork := true, dispatched := none, fetchErrLogged := some "boom" } :=
  (loopIteration_outcomes (ScriptReply.err "boom") "boom" job0).1 rfl

/-- C9, counterexample: with a stop and a force-step pending simultaneously
(both receives ready), Go's select may choose either; when the random choice
falls on the force receive (pickStop = false) the loop services the
force-step, not the stop — refuting the claim that the loop services the
stop first when both are pending. -/
theorem loop_force_step_can_preempt_stop :
    loopStep { stopPending := true, forcePending := true } false = LoopAction.forcedIter
    ∧ LoopAction.forcedIter ≠ LoopAction.exit := by
  exact ⟨rfl, by decide⟩

/-- C9, amended: stop takes precedence over idle default work — once a stop
is pending, no round of the select starts an unforced iteration, whatever
the random choice; and when a stop is pending with no force-step pending the
loop exits. Between a pending stop and a pending force-step, however, the
select chooses nondeterministically, so the force-step may be serviced
before the stop. -/
theorem loop_stop_pending_no_unforced_iteration (s : LoopState) (pickStop : Bool)
    (hstop : s.stopPending = true) :
    loopStep s pickStop ≠ LoopAction.unforcedIter
    ∧ (s.forcePending = false → loopStep s pickStop = LoopAction.exit) := by
  unfold loopStep
  rw [hstop]
  constructor
  · cases hf : s.forcePending <;> cases pickStop <;> simp
  · intro hf
    rw [hf]
    simp

/-- Witness for C9's amended theorem: stop pending, no force-step pending —
the round exits and is not an unforced iteration. -/
theorem loop_stop_pending_no_unforced_iteration_witness :
    loopStep { stopPending := true, forcePending := false } true ≠ LoopAction.unforcedIter
    ∧ loopStep { stopPending := true, forcePending := false } true = LoopAction.exit :=
  ⟨(loop_stop_pending_no_unforced_iteration { stopPending := true, forcePending := false } true rfl).1,
   (loop_stop_pending_no_unforced_iteration { stopPending := true, forcePending := false } true rfl).2 rfl⟩

/-- C10: stop is not idempotent at the public interface. On a worker whose
stopChan is not yet closed, stop closes it and returns once the loop
acknowledges; on a worker whose stopChan is already closed — the state after
a first stop() has returned — stop panics with "close of closed channel"
instead of returning as a no-op or an error. -/
theorem stop_twice_panics (s : LifecycleState) :
    (s.stopChanClosed = false → stop s = GoResult.ok { s with stopChanClosed := true })
    ∧ (s.stopChanClosed = true → stop s = GoResult.panicked "close of closed channel") := by
  unfold stop closeChan
  constructor <;> intro h <;> rw [h] <;> rfl

/-- Witness for C10: the first stop on a fresh worker succeeds; a second
stop, issued after the first returned (stopChan closed, loop exited),
panics. -/
theorem stop_twice_panics_witness :
    stop { stopChanClosed := false, doneStoppingClosed := false }
      = GoResult.ok { stopChanClosed := true, doneStoppingClosed := false }
    ∧ stop { stopChanClosed := true, doneStoppingClosed := true }
      = GoResult.panicked "close of closed channel" :=
  ⟨(stop_twice_panics { stopChanClosed := false, doneStoppingClosed := false }).1 rfl,
   (stop_twice_panics { stopChanClosed := true, doneStoppingClosed := true }).2 rfl⟩

end Work
